import Mathlib

/-!
Shallow embedding of the AgentSDK Guarded Operation Execution Engine and
Evaluation Harness (packages/runner/src, packages/export-openai/src,
packages/eval/src), together with theorems settling the specification
claims about them.

JavaScript values flowing through the engine are modelled by `JValue`
(numbers restricted to integers, which covers every value the engine's
control flow inspects).  Wall-clock timestamps (`Date.now()`) are
environment inputs with no influence on control flow; they are modelled
as the constant 0.  The HTTP transport (`fetch`) and the external ajv
schema validator are modelled as oracle parameters, so that theorems
quantify over their behaviour.
-/

namespace AgentSdk

/-- JSON-shaped JavaScript value (numbers restricted to integers). -/
inductive JValue where
  | str (s : String)
  | num (n : Int)
  | bool (b : Bool)
  | null
  | arr (elems : List JValue)
  | obj (fields : List (String × JValue))
deriving Repr

/-- JavaScript truthiness of a `JValue` ("" , 0, false, null are falsy;
arrays and objects are always truthy). -/
def jsTruthy : JValue → Bool
  | .str s => s ≠ ""
  | .num n => n ≠ 0
  | .bool b => b
  | .null => false
  | .arr _ => true
  | .obj _ => true

/-- Property access `v?.key`: the field's value when `v` is an object
that has the key, otherwise `none` (JS `undefined`). -/
def objGet (v : JValue) (key : String) : Option JValue :=
  match v with
  | .obj fields => (fields.find? (fun kv => kv.1 == key)).map (·.2)
  | _ => none

mutual

/-- JavaScript `String(v)` / template-literal coercion.
`String([1,2]) = "1,2"`, `String({}) = "[object Object]"`. -/
def jsString : JValue → String
  | .str s => s
  | .num n => toString n
  | .bool b => if b then "true" else "false"
  | .null => "null"
  | .arr elems => String.intercalate "," (jsStringList elems)
  | .obj _ => "[object Object]"

/-- Elementwise `jsString` over an array's elements. -/
def jsStringList : List JValue → List String
  | [] => []
  | v :: rest => jsString v :: jsStringList rest

end

/-- JS `a || b` on optional strings: `b` when `a` is absent or falsy (empty). -/
def jsOrStr : Option String → String → String
  | some s, d => if s = "" then d else s
  | none, d => d

/-- JS `a || b` on optional numbers: `b` when `a` is absent or falsy (zero). -/
def jsOrNat : Option Nat → Nat → Nat
  | some n, d => if n = 0 then d else n
  | none, d => d

/-- JSON string escaping as performed by `JSON.stringify` on the
characters the engine can produce (backslash, quote, control chars). -/
def jsonEscapeChar (c : Char) : String :=
  if c = '\\' then "\\\\"
  else if c = '\"' then "\\\""
  else if c = '\n' then "\\n"
  else if c = '\t' then "\\t"
  else if c = '\r' then "\\r"
  else String.singleton c

mutual

/-- `JSON.stringify` for `JValue` (integers print in decimal, object
fields keep insertion order, no added whitespace). -/
def jsonStringify : JValue → String
  | .str s => "\"" ++ String.join (s.toList.map jsonEscapeChar) ++ "\""
  | .num n => toString n
  | .bool b => if b then "true" else "false"
  | .null => "null"
  | .arr elems => "[" ++ String.intercalate "," (jsonStringifyList elems) ++ "]"
  | .obj fields =>
      "\x7b" ++ String.intercalate "," (jsonStringifyFields fields) ++ "\x7d"

/-- Elementwise `jsonStringify` over an array's elements. -/
def jsonStringifyList : List JValue → List String
  | [] => []
  | v :: rest => jsonStringify v :: jsonStringifyList rest

/-- `"key":value` serialization of an object's fields. -/
def jsonStringifyFields : List (String × JValue) → List String
  | [] => []
  | kv :: rest =>
    ("\"" ++ kv.1 ++ "\":" ++ jsonStringify kv.2) :: jsonStringifyFields rest

end

/-- Uppercase hexadecimal digit. -/
def hexDigit (n : Nat) : Char :=
  if n < 10 then Char.ofNat (48 + n) else Char.ofNat (55 + (n - 10))

/-- Percent-encoding of one byte, e.g. `%2F`. -/
def percentByte (b : UInt8) : String :=
  let n := b.toNat
  String.mk ['%', hexDigit (n / 16), hexDigit (n % 16)]

/-- Characters left unescaped by `encodeURIComponent`:
alphanumerics and `- _ . ! ~ * ' ( )`. -/
def uriUnreserved (c : Char) : Bool :=
  let n := c.toNat
  (65 ≤ n && n ≤ 90) || (97 ≤ n && n ≤ 122) || (48 ≤ n && n ≤ 57) ||
    n == 45 || n == 95 || n == 46 || n == 33 || n == 126 ||
    n == 42 || n == 39 || n == 40 || n == 41

/-- JavaScript `encodeURIComponent`: unreserved characters kept,
everything else percent-encoded byte-wise (UTF-8). -/
def encodeURIComponent (s : String) : String :=
  String.join (s.toList.map (fun c =>
    if uriUnreserved c then String.singleton c
    else String.join ((String.utf8EncodeChar c).map percentByte)))

/-- Characters left unescaped by the `application/x-www-form-urlencoded`
serializer used by `URLSearchParams.toString`: alphanumerics and `* - . _`. -/
def formSafe (c : Char) : Bool :=
  let n := c.toNat
  (65 ≤ n && n ≤ 90) || (97 ≤ n && n ≤ 122) || (48 ≤ n && n ≤ 57) ||
    n == 42 || n == 45 || n == 46 || n == 95

/-- `application/x-www-form-urlencoded` escaping of one component
(space becomes `+`, other non-safe characters percent-encoded). -/
def formUrlEncode (s : String) : String :=
  String.join (s.toList.map (fun c =>
    if formSafe c then String.singleton c
    else if c.toNat = 32 then "+"
    else String.join ((String.utf8EncodeChar c).map percentByte)))

/-- `URLSearchParams(params).toString()`: `k=v` pairs in insertion
order joined by `&`, keys and values form-url-encoded. -/
def searchParamsToString : List (String × String) → String
  | [] => ""
  | [kv] => formUrlEncode kv.1 ++ "=" ++ formUrlEncode kv.2
  | kv :: kv2 :: rest =>
    formUrlEncode kv.1 ++ "=" ++ formUrlEncode kv.2 ++ "&" ++
      searchParamsToString (kv2 :: rest)

/-- Replace the first occurrence of `pat` in a character list
(JS `String.prototype.replace` with a string pattern). -/
def replaceFirstList (pat rep : List Char) : List Char → List Char
  | [] => []
  | c :: rest =>
    if pat.isPrefixOf (c :: rest) then rep ++ (c :: rest).drop pat.length
    else c :: replaceFirstList pat rep rest

/-- JS `s.replace(pat, rep)` with a string pattern: first occurrence only. -/
def replaceFirstStr (s pat rep : String) : String :=
  ⟨replaceFirstList pat.toList rep.toList s.toList⟩

/-- Substring test on character lists. -/
def includesList (pat : List Char) : List Char → Bool
  | [] => pat.isPrefixOf []
  | c :: rest => pat.isPrefixOf (c :: rest) || includesList pat rest

/-- JS `s.includes(pat)`. -/
def strIncludes (s pat : String) : Bool :=
  includesList pat.toList s.toList

/-- JS `baseUrl.replace(/\/$/, "")`: drop one trailing slash. -/
def dropTrailingSlash (s : String) : String :=
  match s.toList.getLast? with
  | some c => if c = '/' then ⟨s.toList.dropLast⟩ else s
  | none => s

/-- `Object.assign` on a header map modelled as an insertion-ordered
association list: existing keys are overwritten in place, new keys
are appended. -/
def assignEntry (acc : List (String × String)) (kv : String × String) :
    List (String × String) :=
  if acc.any (fun p => p.1 == kv.1) then
    acc.map (fun p => if p.1 == kv.1 then (p.1, kv.2) else p)
  else acc ++ [kv]

/-- `Object.assign(target, source)` over all entries of `source`. -/
def assignAll (acc : List (String × String)) (src : List (String × String)) :
    List (String × String) :=
  src.foldl assignEntry acc

/-- `ErrorPattern` from packages/spec/src/types/index.ts (the fields the
engine reads; `category` is required there, the rest optional). -/
structure ErrorPattern where
  code : String
  message : Option String := none
  retryable : Option Bool := none
  recoveryHint : Option String := none
  category : String := "unknown"
deriving Repr

/-- `RetryConfig` (`x-guardrails.retry`): all fields optional. -/
structure RetryConfig where
  strategy : Option String := none
  maxRetries : Option Nat := none
  initialDelayMs : Option Nat := none
deriving Repr

/-- `Guardrails` (`x-guardrails`): the fields the engine reads. -/
structure Guardrails where
  retry : Option RetryConfig := none
  timeout : Option Nat := none
deriving Repr

/-- `Operation`: the fields the engine reads.  `xGuardrails` and
`xErrors` embed the JSON keys `x-guardrails` and `x-errors`. -/
structure Operation where
  opId : String
  method : String
  path : String
  xGuardrails : Option Guardrails := none
  xErrors : Option (List ErrorPattern) := none
deriving Repr

/-- `AgentSDK` document: the fields the engine reads (`authHeaders`
embeds `sdk.auth?.headers`). -/
structure AgentSDKDocument where
  name : String := ""
  baseUrl : Option String := none
  authHeaders : Option (List (String × String)) := none
  operations : List Operation
deriving Repr

/-- `ExecutionContext` from packages/export-openai/src. -/
structure ExecutionContext where
  sdk : AgentSDKDocument
  baseUrl : String
  authHeaders : Option (List (String × String)) := none

/-- `createExecutionContext`: `baseUrl = options.baseUrl || sdk.baseUrl || ""`. -/
def createExecutionContext (sdk : AgentSDKDocument)
    (baseUrl : Option String := none)
    (authHeaders : Option (List (String × String)) := none) : ExecutionContext :=
  { sdk := sdk
    baseUrl := jsOrStr baseUrl (jsOrStr sdk.baseUrl "")
    authHeaders := authHeaders }

/-- `findOperationForToolCall`: first operation whose `opId` matches. -/
def findOperationForToolCall (context : ExecutionContext)
    (toolCallName : String) : Option Operation :=
  context.sdk.operations.find? (fun op => op.opId == toolCallName)

/-- `HttpRequestDetails` from packages/export-openai/src. -/
structure HttpRequestDetails where
  url : String
  method : String
  headers : List (String × String)
  body : Option String := none
  timeout : Option Nat := none
deriving Repr

/-- One step of `buildHttpRequest`'s argument loop, threading the
partially substituted path, the query parameters and the body
parameters.  The source has two copies of this loop (one for
GET/DELETE, one for the other methods) whose path-substitution halves
are identical; `isQueryMethod` selects which non-path bucket is used.
`path.includes` / `path.replace` are checked against the evolving path. -/
def buildArgStep (isQueryMethod : Bool)
    (st : String × List (String × String) × List (String × JValue))
    (kv : String × JValue) :
    String × List (String × String) × List (String × JValue) :=
  let path := st.1
  let token := "\x7b" ++ kv.1 ++ "\x7d"
  if strIncludes path token then
    (replaceFirstStr path token (encodeURIComponent (jsString kv.2)),
      st.2.1, st.2.2)
  else if isQueryMethod then
    (path, st.2.1 ++ [(kv.1, jsString kv.2)], st.2.2)
  else
    (path, st.2.1, st.2.2 ++ [kv])

/-- `buildHttpRequest` from packages/export-openai/src: substitute path
tokens, route remaining arguments to the query string (GET/DELETE) or
a JSON body (other methods), assemble URL, headers and timeout.
An argument object is modelled by its `Object.entries` list. -/
def buildHttpRequest (context : ExecutionContext) (operation : Operation)
    (args : List (String × JValue)) : HttpRequestDetails :=
  let isQueryMethod :=
    operation.method == "GET" || operation.method == "DELETE"
  let folded := args.foldl (buildArgStep isQueryMethod)
    (operation.path, ([] : List (String × String)), ([] : List (String × JValue)))
  let path := folded.1
  let queryParams := folded.2.1
  let bodyParams := folded.2.2
  let url0 := dropTrailingSlash context.baseUrl ++ path
  let queryString := searchParamsToString queryParams
  let url := if queryString ≠ "" then url0 ++ "?" ++ queryString else url0
  let headers0 : List (String × String) :=
    [("Content-Type", "application/json"), ("User-Agent", "AgentSDK/0.1.0")]
  let headers1 :=
    match context.authHeaders with
    | some h => assignAll headers0 h
    | none => headers0
  let headers :=
    match context.sdk.authHeaders with
    | some h => assignAll headers1 h
    | none => headers1
  let body :=
    if !isQueryMethod && !bodyParams.isEmpty then
      some (jsonStringify (.obj bodyParams))
    else none
  let timeout :=
    match operation.xGuardrails with
    | some g =>
      match g.timeout with
      | some t => if t ≠ 0 then some t else none
      | none => none
    | none => none
  { url := url, method := operation.method, headers := headers,
    body := body, timeout := timeout }

/-- `ToolCallError` from packages/export-openai/src.  The `message`
field is the string the value is coerced to downstream (the engine only
ever interpolates it into an `Error` message). -/
structure ToolCallError where
  code : String
  message : String
  retryable : Bool
  recoveryHint : Option String := none
  category : Option String := none
deriving Repr

/-- `responseBody?.message || responseBody?.error || default` with JS
truthiness, coerced to a string. -/
def fallbackMessage (responseBody : JValue) (deflt : String) : String :=
  match objGet responseBody "message" with
  | some v =>
    if jsTruthy v then jsString v
    else
      match objGet responseBody "error" with
      | some w => if jsTruthy w then jsString w else deflt
      | none => deflt
  | none =>
    match objGet responseBody "error" with
    | some w => if jsTruthy w then jsString w else deflt
    | none => deflt

/-- `extractErrorInfo` from packages/export-openai/src: first declared
`ErrorPattern` whose `code` equals the status string wins (the source's
`err.code === statusCode || err.code === String(httpStatus)` compares
against the same string twice); otherwise the 5xx/429 heuristic.
An absent `retryable` on a matching pattern yields `false`
(`errorPattern.retryable || false`). -/
def extractErrorInfo (operation : Operation) (httpStatus : Nat)
    (responseBody : JValue) : ToolCallError :=
  let statusCode := toString httpStatus
  match (operation.xErrors.getD []).find? (fun err => err.code == statusCode) with
  | some errorPattern =>
    { code := errorPattern.code
      message := jsOrStr errorPattern.message ("HTTP " ++ statusCode)
      retryable := errorPattern.retryable.getD false
      recoveryHint := errorPattern.recoveryHint
      category := some errorPattern.category }
  | none =>
    let retryable : Bool := 500 ≤ httpStatus || httpStatus == 429
    { code := statusCode
      message := fallbackMessage responseBody ("HTTP " ++ statusCode)
      retryable := retryable
      recoveryHint := some (if retryable then "Retry with exponential backoff"
        else "Check request parameters")
      category := none }

/-- Outcome of one `fetch` as seen by `executeHttp`: either the server
responded (`status` plus the body after the source's
`text ? JSON.parse(text) : \x7b\x7d` step, whose parse failures already
collapse to an empty object), or `fetch` itself threw a network-level
error carrying a `code` and a `message`. -/
inductive HttpOutcome where
  | response (status : Nat) (body : JValue)
  | networkFailure (code : String) (message : String)

/-- The transport oracle: the outcome of the `n`-th send attempt
(0-indexed) of one logical call. -/
def Transport := Nat → HttpOutcome

/-- The errors `executeToolCall` can throw, as the runner builds them:
`localError` for the plain `new Error(...)` throws (unknown operation,
input-validation failure), `network` for a `fetch`-level failure, and
`http` for the classified non-2xx error (which carries `httpStatus`,
`retryable` and `errorCode` properties in the source). -/
inductive ExecError where
  | localError (message : String)
  | network (code : String) (message : String)
  | http (httpStatus : Nat) (retryable : Bool) (errorCode : String)
      (message : String)
deriving Repr

/-- `RunnerConfig`: the fields the executor reads. -/
structure RunnerConfig where
  maxRetries : Option Nat := none
  timeout : Option Nat := none
  enableMetrics : Bool := true
deriving Repr

/-- `executeHttp` for one attempt: build the request, send it
(the attempt's outcome is supplied by the oracle), parse, and on a
non-ok status (outside 200-299) throw the classified error
`HTTP status: message` with the classifier's flags attached. -/
def executeHttp (context : ExecutionContext) (operation : Operation)
    (args : List (String × JValue)) (outcome : HttpOutcome) :
    Except ExecError (JValue × Nat) :=
  let _request := buildHttpRequest context operation args
  match outcome with
  | .networkFailure code message => .error (.network code message)
  | .response httpStatus data =>
    if 200 ≤ httpStatus ∧ httpStatus ≤ 299 then .ok (data, httpStatus)
    else
      let errorInfo := extractErrorInfo operation httpStatus data
      .error (.http httpStatus errorInfo.retryable errorInfo.code
        ("HTTP " ++ toString httpStatus ++ ": " ++ errorInfo.message))

/-- `isRetryableError`: an explicit boolean `retryable` flag wins (only
the classified http error has one); otherwise a numeric `httpStatus`
falls back to the 5xx/429 heuristic; otherwise retry only on the three
listed network error codes.  A plain local `Error` has none of these
properties and is not retryable. -/
def isRetryableError (operation : Operation) (error : ExecError) : Bool :=
  match error with
  | .http _ retryable _ _ => retryable
  | .network code _ =>
    code == "ENOTFOUND" || code == "ECONNRESET" || code == "ETIMEDOUT"
  | .localError _ => false

/-- The loop of `retryWithBackoff`, at loop counter `attempt` with
`remaining = maxRetries - attempt` iterations allowed after this one.
Returns the final outcome, the number of calls to `fn` made, and the
list of backoff delays slept (`baseDelay * 2 ^ attempt` before each
re-entry).  Any thrown error is caught and retried while attempts
remain; the error's own retryability is not consulted here. -/
def retryWithBackoffAux {α : Type} (fn : Nat → Except ExecError α)
    (baseDelay : Nat) (attempt : Nat) :
    Nat → Except ExecError α × Nat × List Nat
  | 0 =>
    (fn attempt, 1, [])
  | remaining + 1 =>
    match fn attempt with
    | .ok a => (.ok a, 1, [])
    | .error _ =>
      let delay := baseDelay * 2 ^ attempt
      let rest := retryWithBackoffAux fn baseDelay (attempt + 1) remaining
      (rest.1, rest.2.1 + 1, delay :: rest.2.2)

/-- `retryWithBackoff(fn, maxRetries, baseDelay)`: attempts are
numbered 0 to `maxRetries`; the error of the attempt at
`attempt == maxRetries` is rethrown. -/
def retryWithBackoff {α : Type} (fn : Nat → Except ExecError α)
    (maxRetries : Nat) (baseDelay : Nat) :
    Except ExecError α × Nat × List Nat :=
  retryWithBackoffAux fn baseDelay 0 maxRetries

/-- `AgentSDKRunner.executeWithRetry`: no retry loop when the policy is
absent or its strategy is `"none"`; otherwise `retryWithBackoff` with
`min(guardrails.retry.maxRetries || 3, config.maxRetries || 3)` and a
base delay of 300.  The inner catch rethrows the error both when
`isRetryableError` holds and when it does not, so every error reaches
`retryWithBackoff`'s own catch.  Returns the outcome, the number of
send attempts, and the backoff delays slept. -/
def executeWithRetry (config : RunnerConfig) (context : ExecutionContext)
    (operation : Operation) (args : List (String × JValue))
    (transport : Transport) :
    Except ExecError (JValue × Nat) × Nat × List Nat :=
  let guardrails := operation.xGuardrails
  let retryCfg := guardrails.bind (·.retry)
  let shouldRetry : Bool :=
    match retryCfg with
    | some rc => rc.strategy ≠ some "none"
    | none => false
  let maxRetries :=
    min (jsOrNat (retryCfg.bind (·.maxRetries)) 3) (jsOrNat config.maxRetries 3)
  if shouldRetry then
    retryWithBackoff
      (fun attempt =>
        match executeHttp context operation args (transport attempt) with
        | .ok r => .ok r
        | .error error =>
          if isRetryableError operation error then .error error
          else .error error)
      maxRetries 300
  else
    (executeHttp context operation args (transport 0), 1, [])

/-- `ExecutionMetrics`: one record per completed call (timestamps are
environment inputs, modelled as 0; `tokensIn`/`tokensOut` are never set
by the runner and are omitted). -/
structure ExecutionMetrics where
  operationId : String
  startTime : Nat := 0
  endTime : Nat := 0
  duration : Nat := 0
  httpStatus : Option Nat := none
  retryCount : Nat
  success : Bool
  errorCode : Option String := none
  errorMessage : Option String := none
deriving Repr

/-- `RunnerMetrics`: the session accumulator owned by one runner. -/
structure RunnerMetrics where
  sessionId : String
  startTime : Nat := 0
  totalOperations : Nat
  successfulOperations : Nat
  failedOperations : Nat
  totalRetries : Nat
  operations : List ExecutionMetrics
deriving Repr

/-- The fresh metrics state built by the constructor and `resetMetrics`. -/
def initialMetrics (sessionId : String) : RunnerMetrics :=
  { sessionId := sessionId
    totalOperations := 0
    successfulOperations := 0
    failedOperations := 0
    totalRetries := 0
    operations := [] }

/-- `recordExecution`: a no-op when metrics are disabled; otherwise
append the record and bump the totals, exactly one of
successful/failed. -/
def recordExecution (config : RunnerConfig) (st : RunnerMetrics)
    (metrics : ExecutionMetrics) : RunnerMetrics :=
  if !config.enableMetrics then st
  else
    { st with
      operations := st.operations ++ [metrics]
      totalOperations := st.totalOperations + 1
      totalRetries := st.totalRetries + metrics.retryCount
      successfulOperations :=
        if metrics.success then st.successfulOperations + 1
        else st.successfulOperations
      failedOperations :=
        if metrics.success then st.failedOperations
        else st.failedOperations + 1 }

/-- `extractErrorCode`:
`error.errorCode || error.code || error.httpStatus?.toString()` with JS
truthiness.  The classified http error carries `errorCode` and
`httpStatus`; a network failure carries `code`; a plain local `Error`
carries none, giving `undefined`. -/
def extractErrorCode : ExecError → Option String
  | .http httpStatus _ errorCode _ =>
    if errorCode ≠ "" then some errorCode else some (toString httpStatus)
  | .network code _ => if code ≠ "" then some code else none
  | .localError _ => none

/-- `error.message` of a thrown error. -/
def execErrorMessage : ExecError → String
  | .localError message => message
  | .network _ message => message
  | .http _ _ _ message => message

/-- `ValidationResult` of the external ajv-based validator
(`validate(schema, value) -> \x7bvalid, errors[]\x7d`); only the error
messages are consumed by the runner. -/
structure ValidationResult where
  valid : Bool
  errors : List String
deriving Repr

/-- The input-validator oracle standing for `validateOperationInput`
(the ajv schema validation itself is outside the engine). -/
def InputValidator := Operation → List (String × JValue) → ValidationResult

/-- Result of one `executeToolCall`: the returned data or thrown error,
the runner's metrics state afterwards, the number of HTTP send attempts
performed, and the backoff delays slept. -/
structure ToolCallOutcome where
  result : Except ExecError JValue
  metrics : RunnerMetrics
  httpSends : Nat
  delays : List Nat

/-- `AgentSDKRunner.executeToolCall`: find the operation (unknown id
throws locally), validate input (failure throws locally, before any
network activity), execute with retry, validate output (warn-only: the
result is returned unchanged), and record exactly one
`ExecutionMetrics`.  `retryCount` is attempts minus one (the source's
`onRetry` callback stores `attempt - 1` and is first invoked on the
second attempt); `httpStatus` is only assigned on the success path, so
failure records carry none. -/
def executeToolCall (config : RunnerConfig) (context : ExecutionContext)
    (validateInput : InputValidator) (st : RunnerMetrics)
    (toolCallName : String) (args : List (String × JValue))
    (transport : Transport) : ToolCallOutcome :=
  match findOperationForToolCall context toolCallName with
  | none =>
    let msg := "Unknown operation: " ++ toolCallName
    { result := .error (.localError msg)
      metrics := recordExecution config st
        { operationId := toolCallName, httpStatus := none, retryCount := 0,
          success := false, errorCode := none, errorMessage := some msg }
      httpSends := 0
      delays := [] }
  | some operation =>
    let inputValidation := validateInput operation args
    if !inputValidation.valid then
      let msg := "Input validation failed: " ++
        String.intercalate ", " inputValidation.errors
      { result := .error (.localError msg)
        metrics := recordExecution config st
          { operationId := toolCallName, httpStatus := none, retryCount := 0,
            success := false, errorCode := none, errorMessage := some msg }
        httpSends := 0
        delays := [] }
    else
      let execd := executeWithRetry config context operation args transport
      let retryCount := execd.2.1 - 1
      match execd.1 with
      | .ok dataStatus =>
        { result := .ok dataStatus.1
          metrics := recordExecution config st
            { operationId := toolCallName, httpStatus := some dataStatus.2,
              retryCount := retryCount, success := true }
          httpSends := execd.2.1
          delays := execd.2.2 }
      | .error error =>
        { result := .error error
          metrics := recordExecution config st
            { operationId := toolCallName, httpStatus := none,
              retryCount := retryCount, success := false,
              errorCode := extractErrorCode error,
              errorMessage := some (execErrorMessage error) }
          httpSends := execd.2.1
          delays := execd.2.2 }

/-- One CSV cell per row field, `httpStatus`/`errorCode`/`errorMessage`
defaulting to the empty string and quotes in the message doubled. -/
def csvRow (sessionId : String) (op : ExecutionMetrics) : List String :=
  [sessionId,
   op.operationId,
   toString op.startTime,
   toString op.duration,
   (op.httpStatus.map toString).getD "",
   toString op.retryCount,
   if op.success then "true" else "false",
   op.errorCode.getD "",
   (op.errorMessage.getD "").replace "\"" "\"\""]

/-- `AgentSDKRunner.exportMetricsCSV`: a header line plus one
quote-wrapped row per recorded operation, joined by newlines.  It reads
`this.metrics` and mutates nothing. -/
def exportMetricsCSV (st : RunnerMetrics) : String :=
  let headers := ["sessionId", "operationId", "startTime", "duration",
    "httpStatus", "retryCount", "success", "errorCode", "errorMessage"]
  String.intercalate "\n"
    (String.intercalate "," headers ::
      st.operations.map (fun op =>
        String.intercalate ","
          ((csvRow st.sessionId op).map (fun cell => "\"" ++ cell ++ "\""))))

/-- The `exportMetricsCSV` method as a state transformer: it returns
the table and leaves the runner's state untouched (the method body only
reads `this.metrics`). -/
def exportMetricsCSVCall (st : RunnerMetrics) : String × RunnerMetrics :=
  (exportMetricsCSV st, st)

/-- The inputs of one `executeToolCall` invocation in a sequence. -/
structure CallSpec where
  toolCallName : String
  args : List (String × JValue)
  validateInput : InputValidator
  transport : Transport

/-- A sequence of `executeToolCall` invocations on one runner instance,
threading the metrics state. -/
def performCalls (config : RunnerConfig) (context : ExecutionContext)
    (st : RunnerMetrics) : List CallSpec → RunnerMetrics
  | [] => st
  | c :: rest =>
    performCalls config context
      (executeToolCall config context c.validateInput st c.toolCallName
        c.args c.transport).metrics rest

/-- `EvaluationTask` from packages/eval/src (the fields the harness
itself reads; the success predicate lives inside the treatments). -/
structure EvaluationTask where
  id : String
  name : String := ""
  prompt : String := ""
deriving Repr

/-- The per-run metrics block of an `EvaluationRun`. -/
structure RunCallMetrics where
  tokensIn : Option Nat := none
  tokensOut : Option Nat := none
  totalTokens : Option Nat := none
  httpCalls : Nat := 0
  invalidCalls : Nat := 0
  retries : Nat := 0
  httpErrors : Nat := 0
deriving Repr

/-- `EvaluationRun` from packages/eval/src. -/
structure EvaluationRun where
  taskId : String
  treatmentName : String
  startTime : Nat := 0
  endTime : Nat := 0
  duration : Nat := 0
  success : Bool
  result : Option JValue := none
  error : Option String := none
  metrics : RunCallMetrics
deriving Repr

/-- A treatment as the harness sees it: `executeTask` either returns an
`EvaluationRun` or throws (an error whose message is the `String`). -/
def Treatment := EvaluationTask → Except String EvaluationRun

/-- The per-treatment summary block of an `EvaluationReport`
(JS floating-point averages modelled as exact rationals). -/
structure TreatmentSummary where
  totalTasks : Nat
  successfulTasks : Nat
  failedTasks : Nat
  successRate : ℚ
  avgDuration : ℚ
  avgTokensIn : ℚ
  avgTokensOut : ℚ
  avgTotalTokens : ℚ
  totalHttpCalls : Nat
  totalInvalidCalls : Nat
  totalRetries : Nat
  totalHttpErrors : Nat

/-- `EvaluationReport` (the `timestamp` and per-treatment
`TreatmentConfig` descriptions carry no harness state and are omitted;
treatment names stand for the config list). -/
structure EvaluationReport where
  runId : String
  tasks : List EvaluationTask
  treatmentNames : List String
  runs : List EvaluationRun
  summary : List (String × TreatmentSummary)

/-- `generateReport`'s summary fold for one treatment over the
accumulated run list: pure filters and sums, guarded division. -/
def summaryFor (treatmentName : String) (runs : List EvaluationRun) :
    TreatmentSummary :=
  let treatmentRuns := runs.filter (fun run => run.treatmentName == treatmentName)
  let successfulRuns := treatmentRuns.filter (fun run => run.success)
  let n := treatmentRuns.length
  let totalTokensIn :=
    treatmentRuns.foldl (fun sum run => sum + (run.metrics.tokensIn.getD 0)) (0 : Nat)
  let totalTokensOut :=
    treatmentRuns.foldl (fun sum run => sum + (run.metrics.tokensOut.getD 0)) (0 : Nat)
  let totalTokensTotal :=
    treatmentRuns.foldl (fun sum run => sum + (run.metrics.totalTokens.getD 0)) (0 : Nat)
  let totalDuration := treatmentRuns.foldl (fun sum run => sum + run.duration) (0 : Nat)
  { totalTasks := n
    successfulTasks := successfulRuns.length
    failedTasks := n - successfulRuns.length
    successRate := if n > 0 then (successfulRuns.length : ℚ) / n else 0
    avgDuration := if n > 0 then (totalDuration : ℚ) / n else 0
    avgTokensIn := if n > 0 then (totalTokensIn : ℚ) / n else 0
    avgTokensOut := if n > 0 then (totalTokensOut : ℚ) / n else 0
    avgTotalTokens := if n > 0 then (totalTokensTotal : ℚ) / n else 0
    totalHttpCalls :=
      treatmentRuns.foldl (fun sum run => sum + run.metrics.httpCalls) 0
    totalInvalidCalls :=
      treatmentRuns.foldl (fun sum run => sum + run.metrics.invalidCalls) 0
    totalRetries :=
      treatmentRuns.foldl (fun sum run => sum + run.metrics.retries) 0
    totalHttpErrors :=
      treatmentRuns.foldl (fun sum run => sum + run.metrics.httpErrors) 0 }

/-- `generateReport`: fold the accumulated runs into per-treatment
summaries (registration order). -/
def generateReport (runId : String) (tasks : List EvaluationTask)
    (treatments : List (String × Treatment)) (runs : List EvaluationRun) :
    EvaluationReport :=
  { runId := runId
    tasks := tasks
    treatmentNames := treatments.map (·.1)
    runs := runs
    summary := treatments.map (fun t => (t.1, summaryFor t.1 runs)) }

/-- The task-major double loop of `EvaluationHarness.runEvaluation`
over `this.runs`: a run returned by `executeTask` is pushed; a thrown
error is caught by a handler that only logs the failure, pushing
nothing, and the loop continues with the next treatment/task. -/
def runEvaluationLoop (tasks : List EvaluationTask)
    (treatments : List (String × Treatment)) (runs : List EvaluationRun) :
    List EvaluationRun :=
  tasks.foldl (fun acc task =>
    treatments.foldl (fun acc2 t =>
      match t.2 task with
      | .ok run => acc2 ++ [run]
      | .error _ => acc2) acc) runs

/-- `runEvaluation`: run every task under every registered treatment,
then build the report. -/
def runEvaluation (runId : String) (tasks : List EvaluationTask)
    (treatments : List (String × Treatment)) (runs : List EvaluationRun) :
    EvaluationReport :=
  generateReport runId tasks treatments (runEvaluationLoop tasks treatments runs)

/-! Concrete fixtures used by the claim theorems: small operation sets,
transports and validators exercising the engine at specific inputs. -/

/-- A validator oracle that accepts every input. -/
def alwaysValid : InputValidator := fun _ _ => { valid := true, errors := [] }

/-- A validator oracle that rejects every input with one message. -/
def alwaysInvalid : InputValidator :=
  fun _ _ => { valid := false, errors := ["must have required property id"] }

/-- A transport whose every attempt yields HTTP 404 with an empty body. -/
def transport404 : Transport := fun _ => .response 404 (.obj [])

/-- A transport whose every attempt yields HTTP 503 with an empty body. -/
def transport503 : Transport := fun _ => .response 503 (.obj [])

/-- A transport whose every attempt yields HTTP 200 with an empty body. -/
def transport200 : Transport := fun _ => .response 200 (.obj [])

/-- Operation declaring an exponential retry policy and an
`ErrorPattern` marking status 404 as not retryable. -/
def opNonRetryable404 : Operation :=
  { opId := "getItem"
    method := "GET"
    path := "/item"
    xGuardrails := some
      { retry := some
          { strategy := some "exponentialBackoff", maxRetries := some 3 } }
    xErrors := some
      [{ code := "404", message := some "Not found", retryable := some false,
         category := "not_found" }] }

/-- Context owning `opNonRetryable404`. -/
def ctxNonRetryable404 : ExecutionContext :=
  createExecutionContext
    { name := "demo", baseUrl := some "https://api.example.com",
      operations := [opNonRetryable404] }

/-- Operation with an exponential retry policy of `maxRetries = N` and
no declared error patterns. -/
def opRetryCount (N : Nat) : Operation :=
  { opId := "listFacts"
    method := "GET"
    path := "/facts"
    xGuardrails := some
      { retry := some
          { strategy := some "exponentialBackoff", maxRetries := some N } } }

/-- Context owning `opRetryCount N`. -/
def ctxRetryCount (N : Nat) : ExecutionContext :=
  createExecutionContext
    { name := "demo", baseUrl := some "https://api.example.com",
      operations := [opRetryCount N] }

/-- Operation with a retry policy of the given strategy, max retry
count and base delay (`initialDelayMs`). -/
def opStrategy (strategy : String) (N d : Option Nat) : Operation :=
  { opId := "listFacts"
    method := "GET"
    path := "/facts"
    xGuardrails := some
      { retry := some
          { strategy := some strategy, maxRetries := N,
            initialDelayMs := d } } }

/-- Context owning `opStrategy strategy N d`. -/
def ctxStrategy (strategy : String) (N d : Option Nat) : ExecutionContext :=
  createExecutionContext
    { name := "demo", baseUrl := some "https://api.example.com",
      operations := [opStrategy strategy N d] }

/-- Operation `GET /items/\x7bid\x7d` with no guardrails. -/
def opGetItemById : Operation :=
  { opId := "getItemById", method := "GET", path := "/items/\x7bid\x7d" }

/-- Operation `POST /items` with no guardrails. -/
def opPostItems : Operation :=
  { opId := "createItem", method := "POST", path := "/items" }

/-- Context owning the two `items` operations. -/
def ctxItems : ExecutionContext :=
  createExecutionContext
    { name := "demo", baseUrl := some "https://api.example.com",
      operations := [opGetItemById, opPostItems] }

/-- Operation declaring an `ErrorPattern` for status 503 whose optional
`retryable` field is omitted. -/
def opUnannotated503 : Operation :=
  { opId := "getFact"
    method := "GET"
    path := "/fact"
    xErrors := some
      [{ code := "503", message := some "Service unavailable",
         category := "server_error" }] }

/-- The 503 pattern of `opUnannotated503`. -/
def pattern503 : ErrorPattern :=
  { code := "503", message := some "Service unavailable",
    category := "server_error" }

/-- Context owning `opUnannotated503`. -/
def ctxUnannotated503 : ExecutionContext :=
  createExecutionContext
    { name := "demo", baseUrl := some "https://api.example.com",
      operations := [opUnannotated503] }

/-- The classified error thrown for a 503 response with an empty body
and no matching declared pattern. -/
def err503 : ExecError := .http 503 true "503" "HTTP 503: HTTP 503"

/-- An evaluation task fixture. -/
def taskT1 : EvaluationTask :=
  { id := "T1", name := "Get 3 random facts" }

/-- A second evaluation task fixture. -/
def taskT2 : EvaluationTask :=
  { id := "T2", name := "List facts with limit" }

/-- A treatment whose `executeTask` always throws `"boom"`. -/
def boomTreatment : Treatment := fun _ => .error "boom"

/-- A treatment whose `executeTask` returns a successful run. -/
def okTreatment : Treatment := fun task =>
  .ok { taskId := task.id, treatmentName := "agent-sdk", success := true,
        metrics := {} }

/-! Helper lemmas shared by the claim theorems. -/

/-- When every attempt of `fn` throws the same error, the retry loop
makes `remaining + 1` calls, sleeps the exponential delays and rethrows
the error. -/
theorem retryWithBackoffAux_const_error {α : Type}
    (fn : Nat → Except ExecError α) (e : ExecError)
    (hfn : ∀ a, fn a = .error e) (baseDelay : Nat) :
    ∀ (remaining attempt : Nat),
      retryWithBackoffAux fn baseDelay attempt remaining =
        (.error e, remaining + 1,
          (List.range remaining).map (fun i => baseDelay * 2 ^ (attempt + i))) := by
  intro remaining
  induction remaining with
  | zero =>
    intro attempt
    calc retryWithBackoffAux fn baseDelay attempt 0 = (fn attempt, 1, []) := rfl
      _ = (.error e, 0 + 1,
            (List.range 0).map (fun i => baseDelay * 2 ^ (attempt + i))) := by
          rw [hfn]; simp
  | succ r ih =>
    intro attempt
    calc retryWithBackoffAux fn baseDelay attempt (r + 1)
        = (match fn attempt with
           | .ok a => (.ok a, 1, [])
           | .error _ =>
             ((retryWithBackoffAux fn baseDelay (attempt + 1) r).1,
              (retryWithBackoffAux fn baseDelay (attempt + 1) r).2.1 + 1,
              baseDelay * 2 ^ attempt ::
                (retryWithBackoffAux fn baseDelay (attempt + 1) r).2.2)) := rfl
      _ = (.error e, r + 1 + 1,
            (List.range (r + 1)).map (fun i => baseDelay * 2 ^ (attempt + i))) := by
          rw [hfn]
          dsimp only
          rw [ih (attempt + 1)]
          dsimp only
          simp only [Prod.mk.injEq]
          refine ⟨trivial, trivial, ?_⟩
          rw [List.range_succ_eq_map, List.map_cons, List.map_map, Nat.add_zero]
          have hcomp : ((fun i => baseDelay * 2 ^ (attempt + i)) ∘ Nat.succ)
              = (fun i => baseDelay * 2 ^ (attempt + 1 + i)) := by
            funext i
            simp only [Function.comp_apply]
            have hadd : attempt + Nat.succ i = attempt + 1 + i := by omega
            rw [hadd]
          rw [hcomp]
          simp

/-- `executeWithRetry` under a retry policy whose strategy is not
`"none"`, when every send attempt throws the same error: the effective
retry bound is `min(policy.maxRetries || 3, config.maxRetries || 3)`,
one more attempt than that is made, and the error is rethrown. -/
theorem executeWithRetry_const_error (config : RunnerConfig)
    (context : ExecutionContext) (operation : Operation)
    (args : List (String × JValue)) (transport : Transport) (e : ExecError)
    (rc : RetryConfig)
    (hsend : ∀ a, executeHttp context operation args (transport a) = .error e)
    (hrc : operation.xGuardrails.bind (·.retry) = some rc)
    (hne : rc.strategy ≠ some "none") :
    executeWithRetry config context operation args transport =
      (.error e,
       min (jsOrNat rc.maxRetries 3) (jsOrNat config.maxRetries 3) + 1,
       (List.range (min (jsOrNat rc.maxRetries 3) (jsOrNat config.maxRetries 3))).map
         (fun i => 300 * 2 ^ i)) := by
  have hfn : ∀ a,
      (fun attempt =>
        match executeHttp context operation args (transport attempt) with
        | .ok r => .ok r
        | .error error =>
          if isRetryableError operation error then .error error
          else .error error) a = (.error e : Except ExecError (JValue × Nat)) := by
    intro a
    simp only [hsend a]
    exact ite_self _
  simp only [executeWithRetry, hrc, Option.bind_some, decide_eq_true hne]
  unfold retryWithBackoff
  rw [retryWithBackoffAux_const_error _ e hfn 300]
  simp

/-- The failure path of `executeToolCall`: with the operation found and
input validation passing, a failing `executeWithRetry` outcome is
rethrown unchanged and one failure record is appended, with
`retryCount` one less than the number of attempts and no `httpStatus`. -/
theorem executeToolCall_error_path (config : RunnerConfig)
    (context : ExecutionContext) (validateInput : InputValidator)
    (st : RunnerMetrics) (toolCallName : String)
    (args : List (String × JValue)) (transport : Transport)
    (operation : Operation) (e : ExecError) (n : Nat) (ds : List Nat)
    (hop : findOperationForToolCall context toolCallName = some operation)
    (hvalid : (validateInput operation args).valid = true)
    (hexec : executeWithRetry config context operation args transport =
      (.error e, n, ds)) :
    executeToolCall config context validateInput st toolCallName args transport =
      { result := .error e
        metrics := recordExecution config st
          { operationId := toolCallName, httpStatus := none,
            retryCount := n - 1, success := false,
            errorCode := extractErrorCode e,
            errorMessage := some (execErrorMessage e) }
        httpSends := n
        delays := ds } := by
  unfold executeToolCall
  rw [hop]
  simp [hvalid, hexec]

/-- The success path of `executeToolCall`: with the operation found and
input validation passing, a successful `executeWithRetry` outcome is
returned (output validation is warn-only) and one success record is
appended carrying the response status. -/
theorem executeToolCall_ok_path (config : RunnerConfig)
    (context : ExecutionContext) (validateInput : InputValidator)
    (st : RunnerMetrics) (toolCallName : String)
    (args : List (String × JValue)) (transport : Transport)
    (operation : Operation) (ds : JValue × Nat) (n : Nat) (dl : List Nat)
    (hop : findOperationForToolCall context toolCallName = some operation)
    (hvalid : (validateInput operation args).valid = true)
    (hexec : executeWithRetry config context operation args transport =
      (.ok ds, n, dl)) :
    executeToolCall config context validateInput st toolCallName args transport =
      { result := .ok ds.1
        metrics := recordExecution config st
          { operationId := toolCallName, httpStatus := some ds.2,
            retryCount := n - 1, success := true }
        httpSends := n
        delays := dl } := by
  unfold executeToolCall
  rw [hop]
  simp [hvalid, hexec]

/-- Every completed `executeToolCall` records exactly one execution. -/
theorem executeToolCall_metrics_shape (config : RunnerConfig)
    (context : ExecutionContext) (validateInput : InputValidator)
    (st : RunnerMetrics) (toolCallName : String)
    (args : List (String × JValue)) (transport : Transport) :
    ∃ em, (executeToolCall config context validateInput st toolCallName
      args transport).metrics = recordExecution config st em := by
  unfold executeToolCall
  cases findOperationForToolCall context toolCallName with
  | none => exact ⟨_, rfl⟩
  | some operation =>
    dsimp only
    split
    · exact ⟨_, rfl⟩
    · split <;> exact ⟨_, rfl⟩

/-- `recordExecution` preserves `total = successful + failed`. -/
theorem recordExecution_total (config : RunnerConfig) (st : RunnerMetrics)
    (em : ExecutionMetrics)
    (h : st.totalOperations = st.successfulOperations + st.failedOperations) :
    (recordExecution config st em).totalOperations
      = (recordExecution config st em).successfulOperations
        + (recordExecution config st em).failedOperations := by
  unfold recordExecution
  cases hc : config.enableMetrics with
  | false => simpa [hc] using h
  | true => cases hs : em.success <;> simp [hc, hs] <;> omega

/-- Any sequence of calls preserves `total = successful + failed`. -/
theorem performCalls_total (config : RunnerConfig)
    (context : ExecutionContext) :
    ∀ (calls : List CallSpec) (st : RunnerMetrics),
      st.totalOperations = st.successfulOperations + st.failedOperations →
      (performCalls config context st calls).totalOperations
        = (performCalls config context st calls).successfulOperations
          + (performCalls config context st calls).failedOperations := by
  intro calls
  induction calls with
  | nil => intro st h; simpa [performCalls] using h
  | cons c rest ih =>
    intro st h
    simp only [performCalls]
    apply ih
    obtain ⟨em, hm⟩ := executeToolCall_metrics_shape config context
      c.validateInput st c.toolCallName c.args c.transport
    rw [hm]
    exact recordExecution_total config st em h

/-- One task's inner treatment loop of `runEvaluation`: exactly the
runs of the treatments whose `executeTask` returned normally are
appended, in registration order. -/
theorem runTreatmentsFold (task : EvaluationTask) :
    ∀ (treatments : List (String × Treatment)) (acc : List EvaluationRun),
      treatments.foldl (fun acc2 t =>
        match t.2 task with
        | .ok run => acc2 ++ [run]
        | .error _ => acc2) acc
      = acc ++ treatments.filterMap (fun t => (t.2 task).toOption) := by
  intro treatments
  induction treatments with
  | nil => intro acc; simp
  | cons t ts ih =>
    intro acc
    cases h : t.2 task with
    | ok run => simp [h, ih, Except.toOption]
    | error msg => simp [h, ih, Except.toOption]

/-- The harness loop appends exactly the runs of the task-treatment
pairs whose `executeTask` returned normally, task-major, skipping the
pairs that threw. -/
theorem runEvaluationLoop_eq :
    ∀ (tasks : List EvaluationTask)
      (treatments : List (String × Treatment)) (runs : List EvaluationRun),
      runEvaluationLoop tasks treatments runs
        = runs ++ tasks.flatMap (fun task =>
            treatments.filterMap (fun t => (t.2 task).toOption)) := by
  intro tasks
  induction tasks with
  | nil => intro treatments runs; simp [runEvaluationLoop]
  | cons task rest ih =>
    intro treatments runs
    calc runEvaluationLoop (task :: rest) treatments runs
        = runEvaluationLoop rest treatments
            (treatments.foldl (fun acc2 t =>
              match t.2 task with
              | .ok run => acc2 ++ [run]
              | .error _ => acc2) runs) := rfl
      _ = runEvaluationLoop rest treatments
            (runs ++ treatments.filterMap (fun t => (t.2 task).toOption)) := by
            rw [runTreatmentsFold]
      _ = runs ++ (task :: rest).flatMap (fun task =>
            treatments.filterMap (fun t => (t.2 task).toOption)) := by
            rw [ih]
            simp [List.append_assoc]

/-- If no argument's token occurs in the path, the non-GET/DELETE
argument loop leaves the path and query untouched and routes every
argument to the body, in order. -/
theorem buildArgStep_fold_no_tokens :
    ∀ (args : List (String × JValue)) (path : String)
      (qp : List (String × String)) (bp : List (String × JValue)),
      (∀ kv ∈ args, strIncludes path ("\x7b" ++ kv.1 ++ "\x7d") = false) →
      args.foldl (buildArgStep false) (path, qp, bp) = (path, qp, bp ++ args) := by
  intro args
  induction args with
  | nil => intro path qp bp _; simp
  | cons kv rest ih =>
    intro path qp bp h
    have h1 : strIncludes path ("\x7b" ++ kv.1 ++ "\x7d") = false :=
      h kv (by simp)
    have h2 : ∀ kv2 ∈ rest, strIncludes path ("\x7b" ++ kv2.1 ++ "\x7d") = false :=
      fun kv2 hm => h kv2 (by simp [hm])
    have hstep : buildArgStep false (path, qp, bp) kv = (path, qp, bp ++ [kv]) := by
      simp [buildArgStep, h1]
    rw [List.foldl_cons, hstep, ih path qp (bp ++ [kv]) h2]
    simp

/-- If no argument's token occurs in the path, the GET/DELETE argument
loop leaves the path untouched and routes every argument, stringified,
to the query parameters, in order. -/
theorem buildArgStep_fold_no_tokens_query :
    ∀ (args : List (String × JValue)) (path : String)
      (qp : List (String × String)) (bp : List (String × JValue)),
      (∀ kv ∈ args, strIncludes path ("\x7b" ++ kv.1 ++ "\x7d") = false) →
      args.foldl (buildArgStep true) (path, qp, bp)
        = (path, qp ++ args.map (fun kv => (kv.1, jsString kv.2)), bp) := by
  intro args
  induction args with
  | nil => intro path qp bp _; simp
  | cons kv rest ih =>
    intro path qp bp h
    have h1 : strIncludes path ("\x7b" ++ kv.1 ++ "\x7d") = false :=
      h kv (by simp)
    have h2 : ∀ kv2 ∈ rest, strIncludes path ("\x7b" ++ kv2.1 ++ "\x7d") = false :=
      fun kv2 hm => h kv2 (by simp [hm])
    have hstep : buildArgStep true (path, qp, bp) kv
        = (path, qp ++ [(kv.1, jsString kv.2)], bp) := by
      simp [buildArgStep, h1]
    rw [List.foldl_cons, hstep, ih path (qp ++ [(kv.1, jsString kv.2)]) bp h2]
    simp

/-- The serialized query string of a nonempty parameter list is
nonempty (it contains at least one `=`). -/
theorem searchParamsToString_ne_empty (kv : String × String)
    (rest : List (String × String)) :
    searchParamsToString (kv :: rest) ≠ "" := by
  cases rest with
  | nil =>
    intro hc
    have := congrArg String.length hc
    simp [searchParamsToString, String.length_append] at this
    exact absurd this.1.2 (by decide)
  | cons kv2 rest2 =>
    intro hc
    have := congrArg String.length hc
    simp [searchParamsToString, String.length_append] at this
    exact absurd this.1.1.1.2 (by decide)

/-! The claim theorems. -/

/-- C1.  The claim states that an operation whose declared
`ErrorPattern` matches the returned status with `retryable: false`
makes exactly 1 HTTP send attempt before the classified error is
thrown.  The code instead retries it: the error classifier does return
`retryable = false`, but `executeWithRetry`'s non-retryable branch
rethrows into `retryWithBackoff`, whose catch retries every error, so
the executor performs `maxRetries + 1 = 4` send attempts before
throwing — contradicting the source's own "Non-retryable error, don't
retry" comment. -/
theorem C1_nonretryable_pattern_still_retried :
    (extractErrorInfo opNonRetryable404 404 (.obj [])).retryable = false ∧
    (executeToolCall {} ctxNonRetryable404 alwaysValid (initialMetrics "s1")
      "getItem" [] transport404).httpSends = 4 ∧
    (executeToolCall {} ctxNonRetryable404 alwaysValid (initialMetrics "s1")
      "getItem" [] transport404).result
      = .error (.http 404 false "404" "HTTP 404: Not found") :=
  ⟨rfl, rfl, rfl⟩

/-- C2 counterexample.  The claim states that an operation with
`maxRetries = N` (N in 0..10) whose attempts all fail retryably makes
exactly `N + 1` send attempts.  At `N = 0` the code makes 4 attempts,
not 1: `maxRetries || 3` treats 0 as unset. -/
theorem C2_maxRetriesZero_counterexample :
    (executeToolCall {} (ctxRetryCount 0) alwaysValid (initialMetrics "s2")
      "listFacts" [] transport503).httpSends = 4 ∧
    (executeToolCall {} (ctxRetryCount 0) alwaysValid (initialMetrics "s2")
      "listFacts" [] transport503).httpSends ≠ 0 + 1 :=
  ⟨rfl, by decide⟩

/-- C2 amended.  With the runner's `config.maxRetries` left at its
default, an operation with `maxRetries = N` whose attempts all fail
retryably makes exactly `min(N == 0 ? 3 : N, 3) + 1` send attempts and
then throws the classified error: `N + 1` holds only for `1 ≤ N ≤ 3`;
`N = 0` is treated as unset (`|| 3`), and larger `N` is capped by the
runner-level default of 3. -/
theorem C2_attempt_count_amended (N : Nat) :
    (executeToolCall {} (ctxRetryCount N) alwaysValid (initialMetrics "s2")
      "listFacts" [] transport503).httpSends
      = min (if N = 0 then 3 else N) 3 + 1 ∧
    (executeToolCall {} (ctxRetryCount N) alwaysValid (initialMetrics "s2")
      "listFacts" [] transport503).result = .error err503 := by
  have hw := executeWithRetry_const_error {} (ctxRetryCount N) (opRetryCount N)
    [] transport503 err503
    { strategy := some "exponentialBackoff", maxRetries := some N }
    (fun a => rfl) rfl
    (show (some "exponentialBackoff" : Option String) ≠ some "none" by decide)
  have ht := executeToolCall_error_path {} (ctxRetryCount N) alwaysValid
    (initialMetrics "s2") "listFacts" [] transport503 (opRetryCount N)
    err503 _ _ rfl rfl hw
  rw [ht]
  exact ⟨rfl, rfl⟩

/-- C3 counterexample.  The claim states that when a treatment's
`executeTask` throws, the harness appends a zero-success
`EvaluationRun` preserving the thrown message.  In the code the
harness's catch block only logs: with a treatment throwing `"boom"`
registered before a succeeding one, the report's run list contains
only the succeeding treatment's run — no run for the throwing pair is
appended (while the harness did continue and did return a report). -/
theorem C3_thrown_run_not_recorded :
    (runEvaluation "run1" [taskT1]
      [("boom-treatment", boomTreatment), ("agent-sdk", okTreatment)] []).runs
      = [{ taskId := "T1", treatmentName := "agent-sdk", success := true,
           metrics := {} }] :=
  rfl

/-- C3 amended.  `runEvaluation` always returns a report and never
propagates a treatment's exception; its run list consists of exactly
the runs of the task-treatment pairs whose `executeTask` returned
normally, in task-major registration order — a pair that throws is
skipped without any run being appended (the zero-success
error-preserving runs come from the treatments' own catch blocks, not
from the harness). -/
theorem C3_harness_skips_thrown_runs (runId : String)
    (tasks : List EvaluationTask) (treatments : List (String × Treatment))
    (runs0 : List EvaluationRun) :
    (runEvaluation runId tasks treatments runs0).runs
      = runs0 ++ tasks.flatMap (fun task =>
          treatments.filterMap (fun t => (t.2 task).toOption)) := by
  show runEvaluationLoop tasks treatments runs0 = _
  exact runEvaluationLoop_eq tasks treatments runs0

/-- C4 counterexample.  The claim states that a call whose path
template token `\x7bid\x7d` has no matching argument fails with a
local "missing parameter" error before any network request.  In the
code no such check exists: the call with empty arguments issues 1 HTTP
send (the token left verbatim in the URL) and returns the server's
response. -/
theorem C4_missing_param_counterexample :
    (executeToolCall {} ctxItems alwaysValid (initialMetrics "s4")
      "getItemById" [] transport200).httpSends = 1 ∧
    (executeToolCall {} ctxItems alwaysValid (initialMetrics "s4")
      "getItemById" [] transport200).result = .ok (.obj []) ∧
    strIncludes (buildHttpRequest ctxItems opGetItemById []).url "\x7bid\x7d"
      = true :=
  ⟨rfl, rfl, rfl⟩

/-- C4 amended.  An unsatisfied `\x7bname\x7d` token is not detected:
`buildHttpRequest` leaves it verbatim in the URL, and whatever the
transport then does, the executor performs its one send attempt as
usual — no local missing-parameter failure exists. -/
theorem C4_token_left_in_url (transport : Transport) :
    (executeToolCall {} ctxItems alwaysValid (initialMetrics "s4")
      "getItemById" [] transport).httpSends = 1 ∧
    (buildHttpRequest ctxItems opGetItemById []).url
      = "https://api.example.com/items/\x7bid\x7d" := by
  refine ⟨?_, rfl⟩
  cases hx : executeHttp ctxItems opGetItemById [] (transport 0) with
  | ok ds =>
    have ht := executeToolCall_ok_path {} ctxItems alwaysValid
      (initialMetrics "s4") "getItemById" [] transport opGetItemById ds 1 []
      rfl rfl (by rw [show executeWithRetry {} ctxItems opGetItemById [] transport
        = (executeHttp ctxItems opGetItemById [] (transport 0), 1, []) from rfl, hx])
    rw [ht]
  | error e =>
    have ht := executeToolCall_error_path {} ctxItems alwaysValid
      (initialMetrics "s4") "getItemById" [] transport opGetItemById e 1 []
      rfl rfl (by rw [show executeWithRetry {} ctxItems opGetItemById [] transport
        = (executeHttp ctxItems opGetItemById [] (transport 0), 1, []) from rfl, hx])
    rw [ht]

/-- C5 counterexample.  The claim states that a `fixedDelay` policy
with base delay `d = 1000` sleeps `d` before every retry.  The code
sleeps `[300, 600]` — hardcoded base 300 with exponential growth —
not `[1000, 1000]`. -/
theorem C5_fixed_strategy_counterexample :
    (executeToolCall {} (ctxStrategy "fixedDelay" (some 2) (some 1000))
      alwaysValid (initialMetrics "s5") "listFacts" [] transport503).delays
      = [300, 600] ∧
    (executeToolCall {} (ctxStrategy "fixedDelay" (some 2) (some 1000))
      alwaysValid (initialMetrics "s5") "listFacts" [] transport503).delays
      ≠ [1000, 1000] :=
  ⟨rfl, by decide⟩

/-- C5 amended.  For every retry strategy other than `"none"` and
every declared base delay, the sleep before the k-th retry is
`300 * 2^(k-1)` milliseconds: the policy's strategy and
`initialDelayMs` are ignored, `retryWithBackoff` being called with the
hardcoded base 300 and an always-exponential schedule. -/
theorem C5_delay_schedule_amended (strategy : String) (N d : Option Nat)
    (h : strategy ≠ "none") :
    (executeToolCall {} (ctxStrategy strategy N d) alwaysValid
      (initialMetrics "s5") "listFacts" [] transport503).delays
      = (List.range (min (jsOrNat N 3) 3)).map (fun i => 300 * 2 ^ i) := by
  have hne : (some strategy : Option String) ≠ some "none" := by
    intro hc
    exact h (Option.some.injEq _ _ ▸ hc)
  have hw := executeWithRetry_const_error {} (ctxStrategy strategy N d)
    (opStrategy strategy N d) [] transport503 err503
    { strategy := some strategy, maxRetries := N, initialDelayMs := d }
    (fun a => rfl) rfl hne
  have ht := executeToolCall_error_path {} (ctxStrategy strategy N d)
    alwaysValid (initialMetrics "s5") "listFacts" [] transport503
    (opStrategy strategy N d) err503 _ _ rfl rfl hw
  rw [ht]
  rfl

/-- C5 witness: the amended schedule at the counterexample's policy
(`fixedDelay`, `maxRetries = 2`, base 1000) gives sleeps `[300, 600]`. -/
theorem C5_delay_schedule_amended_witness :
    (executeToolCall {} (ctxStrategy "fixedDelay" (some 2) (some 1000))
      alwaysValid (initialMetrics "s5") "listFacts" [] transport503).delays
      = [300, 600] :=
  (C5_delay_schedule_amended "fixedDelay" (some 2) (some 1000)
    (by decide)).trans rfl

/-- C6.  When the operation exists but input validation fails,
`executeToolCall` throws the local validation error immediately: zero
HTTP sends, zero backoff sleeps, and the single recorded execution is
a failure with `retryCount = 0` and no HTTP status. -/
theorem C6_validation_failure_no_network (config : RunnerConfig)
    (context : ExecutionContext) (validateInput : InputValidator)
    (st : RunnerMetrics) (toolCallName : String)
    (args : List (String × JValue)) (transport : Transport)
    (operation : Operation)
    (hop : findOperationForToolCall context toolCallName = some operation)
    (hvalid : (validateInput operation args).valid = false) :
    (executeToolCall config context validateInput st toolCallName args
      transport).httpSends = 0 ∧
    (executeToolCall config context validateInput st toolCallName args
      transport).delays = [] ∧
    (executeToolCall config context validateInput st toolCallName args
      transport).result = .error (.localError ("Input validation failed: "
        ++ String.intercalate ", " (validateInput operation args).errors)) ∧
    (executeToolCall config context validateInput st toolCallName args
      transport).metrics = recordExecution config st
      { operationId := toolCallName, httpStatus := none, retryCount := 0,
        success := false, errorCode := none,
        errorMessage := some ("Input validation failed: "
          ++ String.intercalate ", " (validateInput operation args).errors) } := by
  unfold executeToolCall
  rw [hop]
  simp [hvalid]

/-- C6 witness: a concrete run with a rejecting validator makes no
send attempt and records a zero-retry failure. -/
theorem C6_validation_failure_no_network_witness :
    (executeToolCall {} ctxItems alwaysInvalid (initialMetrics "s6")
      "getItemById" [] transport200).httpSends = 0 ∧
    (executeToolCall {} ctxItems alwaysInvalid (initialMetrics "s6")
      "getItemById" [] transport200).delays = [] ∧
    (executeToolCall {} ctxItems alwaysInvalid (initialMetrics "s6")
      "getItemById" [] transport200).result
      = .error (.localError ("Input validation failed: "
        ++ String.intercalate ", " (alwaysInvalid opGetItemById []).errors)) ∧
    (executeToolCall {} ctxItems alwaysInvalid (initialMetrics "s6")
      "getItemById" [] transport200).metrics
      = recordExecution {} (initialMetrics "s6")
      { operationId := "getItemById", httpStatus := none, retryCount := 0,
        success := false, errorCode := none,
        errorMessage := some ("Input validation failed: "
          ++ String.intercalate ", " (alwaysInvalid opGetItemById []).errors) } :=
  C6_validation_failure_no_network {} ctxItems alwaysInvalid
    (initialMetrics "s6") "getItemById" [] transport200 opGetItemById rfl rfl

/-- C7.  `buildHttpRequest` substitutes path tokens and routes the
remaining arguments by method: for GET/DELETE no body is ever
produced; for other methods, when no argument matches a path token,
every argument lands in the JSON-encoded body; concretely,
`GET /items/\x7bid\x7d` with `id = 42, verbose = true` yields
`.../items/42?verbose=true` with no body, and `POST /items` with
`id = 42` yields body `\x7b"id":42\x7d` with the URL unchanged. -/
theorem C7_request_construction :
    (∀ (context : ExecutionContext) (operation : Operation)
        (args : List (String × JValue)),
      operation.method = "GET" ∨ operation.method = "DELETE" →
      (buildHttpRequest context operation args).body = none) ∧
    (∀ (context : ExecutionContext) (operation : Operation)
        (args : List (String × JValue)),
      operation.method = "GET" ∨ operation.method = "DELETE" →
      (∀ kv ∈ args,
        strIncludes operation.path ("\x7b" ++ kv.1 ++ "\x7d") = false) →
      args ≠ [] →
      (buildHttpRequest context operation args).url
        = dropTrailingSlash context.baseUrl ++ operation.path ++ "?"
          ++ searchParamsToString
              (args.map (fun kv => (kv.1, jsString kv.2)))) ∧
    (∀ (context : ExecutionContext) (operation : Operation)
        (args : List (String × JValue)),
      operation.method ≠ "GET" → operation.method ≠ "DELETE" →
      (∀ kv ∈ args,
        strIncludes operation.path ("\x7b" ++ kv.1 ++ "\x7d") = false) →
      args ≠ [] →
      (buildHttpRequest context operation args).body
        = some (jsonStringify (.obj args))) ∧
    buildHttpRequest ctxItems opGetItemById
        [("id", JValue.num 42), ("verbose", JValue.bool true)]
      = { url := "https://api.example.com/items/42?verbose=true"
          method := "GET"
          headers := [("Content-Type", "application/json"),
                      ("User-Agent", "AgentSDK/0.1.0")]
          body := none
          timeout := none } ∧
    buildHttpRequest ctxItems opPostItems [("id", JValue.num 42)]
      = { url := "https://api.example.com/items"
          method := "POST"
          headers := [("Content-Type", "application/json"),
                      ("User-Agent", "AgentSDK/0.1.0")]
          body := some "\x7b\"id\":42\x7d"
          timeout := none } := by
  refine ⟨?_, ?_, ?_, rfl, rfl⟩
  · intro context operation args h
    rcases h with h | h <;> simp [buildHttpRequest, h]
  · intro context operation args hmethod htok hne
    have hq : (operation.method == "GET" || operation.method == "DELETE")
        = true := by
      rcases hmethod with h | h <;> simp [h]
    simp only [buildHttpRequest, hq]
    rw [buildArgStep_fold_no_tokens_query args operation.path [] [] htok]
    obtain ⟨kv, rest, rfl⟩ : ∃ kv rest, args = kv :: rest := by
      cases args with
      | nil => exact absurd rfl hne
      | cons kv rest => exact ⟨kv, rest, rfl⟩
    have hqs := searchParamsToString_ne_empty (kv.1, jsString kv.2)
      (rest.map (fun kv => (kv.1, jsString kv.2)))
    simp [hqs]
  · intro context operation args hG hD htok hne
    have hq : (operation.method == "GET" || operation.method == "DELETE")
        = false := by
      simp [hG, hD]
    simp only [buildHttpRequest, hq]
    rw [buildArgStep_fold_no_tokens args operation.path [] [] htok]
    cases args with
    | nil => exact absurd rfl hne
    | cons kv rest => simp

/-- C7 witness: the GET/DELETE clause applied to the GET scenario's
inputs yields no body. -/
theorem C7_request_construction_witness :
    (buildHttpRequest ctxItems opGetItemById
      [("id", JValue.num 42), ("verbose", JValue.bool true)]).body = none :=
  C7_request_construction.1 ctxItems opGetItemById
    [("id", JValue.num 42), ("verbose", JValue.bool true)] (Or.inl rfl)

/-- C8.  After any sequence of `executeToolCall` invocations on one
runner instance, `totalOperations = successfulOperations +
failedOperations`. -/
theorem C8_metrics_total_invariant (config : RunnerConfig)
    (context : ExecutionContext) (sessionId : String)
    (calls : List CallSpec) :
    (performCalls config context (initialMetrics sessionId) calls).totalOperations
      = (performCalls config context (initialMetrics sessionId)
          calls).successfulOperations
        + (performCalls config context (initialMetrics sessionId)
            calls).failedOperations :=
  performCalls_total config context calls (initialMetrics sessionId) rfl

/-- C9.  Exporting the metrics CSV twice with no intervening call
yields byte-identical strings: the method reads the state and leaves
it untouched. -/
theorem C9_export_idempotent (st : RunnerMetrics) :
    (exportMetricsCSVCall st).1
      = (exportMetricsCSVCall (exportMetricsCSVCall st).2).1 ∧
    (exportMetricsCSVCall (exportMetricsCSVCall st).2).2 = st :=
  ⟨rfl, rfl⟩

/-- C10.  When a declared `ErrorPattern` matches the response status
but omits its optional `retryable` field, `extractErrorInfo` reports
`retryable = false` (`errorPattern.retryable || false`); the 5xx/429
fallback heuristic is not consulted once a pattern matches, whatever
the status. -/
theorem C10_unannotated_pattern_not_retryable (operation : Operation)
    (httpStatus : Nat) (responseBody : JValue) (p : ErrorPattern)
    (hfind : (operation.xErrors.getD []).find?
      (fun err => err.code == toString httpStatus) = some p)
    (hretry : p.retryable = none) :
    (extractErrorInfo operation httpStatus responseBody).retryable = false := by
  simp only [extractErrorInfo]
  rw [hfind]
  simp [hretry]

/-- C10 witness: a 503 response matching an unannotated pattern is
classified non-retryable even though the fallback heuristic would
retry a 503. -/
theorem C10_unannotated_pattern_not_retryable_witness :
    (extractErrorInfo opUnannotated503 503 (.obj [])).retryable = false :=
  C10_unannotated_pattern_not_retryable opUnannotated503 503 (.obj [])
    pattern503 rfl rfl

end AgentSdk
